import Mathlib

/-!
Shallow embedding of the reservation handler
(`cicd-pipelines/pipelines/build/lambda/Lambda_reservas_handler.py`) of the
hostel repository, together with theorems settling the specification claims
about its availability / overlap-checking and reservation-consistency logic.

Modelling conventions:
* Dates: the handler stores check-in/check-out as ISO strings and converts
  them with `datetime.fromisoformat` at comparison time.  `fromisoformat`
  on valid ISO dates is an order-embedding into datetimes, so a parseable
  date string is represented by its day number (`Int`) and an unparseable
  string by `none`; a stored date field therefore has type `Option Int`
  (`DateStr` below), and a raised `ValueError` corresponds to the `none`
  branches.
* Money: `preco_diaria` and `valor_total` are modelled as `Int` (the
  Python uses `float`/`Decimal`; every amount in the arithmetic at stake —
  nightly rates, the per-guest fee 15, totals — is an integer number of
  currency units, on which Python float arithmetic is exact).
* DynamoDB tables: lists of records.  `put_item` replaces the record with
  the same primary key.  A query on the `quarto-data-index` GSI keyed by
  `quarto_id` only returns items that HAVE a `quarto_id` attribute; records
  written by `criar_reserva` lack that attribute, modelled by
  `quarto_id : Option String := none` on `Reserva`.
* External collaborator outcomes (SES send, SQS publish, and the undefined
  `atualizar_disponibilidade_quarto`) are supplied by an `Env`; `uuid4` and
  `datetime.now` are likewise `Env` parameters.
-/

namespace Hostel

/-- A date string as seen by `datetime.fromisoformat`: `some d` is a valid
ISO date with day number `d`, `none` an unparseable string. -/
abbrev DateStr := Option Int

/-- A record of the `quartos` table (room catalog). -/
structure Quarto where
  quarto_id : String
  tipo : String
  capacidade : Int
  preco_diaria : Int
  amenidades : List String := []
deriving DecidableEq

/-- A record of the `reservas` table (booking ledger).  `quarto_id` is the
optional GSI key of `quarto-data-index`; items written by `criar_reserva`
do not set it. -/
structure Reserva where
  reserva_id : String
  cliente_email : String
  cliente_nome : String := ""
  cliente_telefone : String := ""
  checkin : DateStr
  checkout : DateStr
  tipo_quarto : String
  num_hospedes : Int
  valor_total : Int
  status : String
  data_criacao : String := ""
  servicos_extras : List String := []
  observacoes : String := ""
  quarto_id : Option String := none
deriving DecidableEq

/-- A record of the `clientes` table. -/
structure Cliente where
  email : String
  nome : String := ""
  telefone : String := ""
  ultima_atualizacao : String := ""
deriving DecidableEq

/-- The DynamoDB state visible to the handler. -/
structure DB where
  reservas : List Reserva
  quartos : List Quarto
  clientes : List Cliente
deriving DecidableEq

/-- Environment of one `criar_reserva` execution: the generated
`uuid.uuid4()` value, `datetime.now().isoformat()`, and the outcomes of the
three collaborator calls made after the ledger write. -/
structure Env where
  fresh_id : String
  now : String
  update_ok : Bool
  email_ok : Bool
  sqs_ok : Bool
deriving DecidableEq

/-- The query of lines 206-210: `reservas` items with the given
`quarto_id` (GSI key condition) whose `status` is `'confirmada'`
(filter expression). -/
def query_reservas_quarto (db : DB) (qid : String) : List Reserva :=
  db.reservas.filter (fun r => r.quarto_id == some qid && r.status == "confirmada")

/-- The loop of lines 215-221: walk the fetched bookings; return `False`
at the first one with `checkin_date < reserva_checkout and checkout_date >
reserva_checkin`.  A stored date that fails to parse raises, and the
enclosing `except` also returns `False`. -/
def sobreposicao_loop (a b : Int) : List Reserva → Bool
  | [] => true
  | r :: rs =>
    match r.checkin, r.checkout with
    | some c, some d => if a < d ∧ b > c then false else sobreposicao_loop a b rs
    | _, _ => false

/-- `verificar_quarto_disponivel` (lines 200-227): fetch the confirmed
bookings of the room, parse the requested dates (an unparseable request
date raises and the `except` returns `False`), and run the overlap loop. -/
def verificar_quarto_disponivel (db : DB) (qid : String) (checkin checkout : DateStr) : Bool :=
  match checkin, checkout with
  | some a, some b => sobreposicao_loop a b (query_reservas_quarto db qid)
  | _, _ => false

/-- Result shape of `verificar_disponibilidade`. -/
structure Disponibilidade where
  disponivel : Bool
  quarto_id : Option String := none
deriving DecidableEq

/-- The `tipo-index` query of lines 185-188: `quartos` items of the given
type, in table order. -/
def query_quartos_tipo (db : DB) (tipo : String) : List Quarto :=
  db.quartos.filter (fun q => q.tipo == tipo)

/-- `verificar_disponibilidade` (lines 179-198): return the first room of
the requested type that `verificar_quarto_disponivel` accepts, else
`disponivel: False`. -/
def verificar_disponibilidade (db : DB) (checkin checkout : DateStr) (tipo_quarto : String) :
    Disponibilidade :=
  match (query_quartos_tipo db tipo_quarto).find?
      (fun q => verificar_quarto_disponivel db q.quarto_id checkin checkout) with
  | some q => { disponivel := true, quarto_id := some q.quarto_id }
  | none => { disponivel := false }

/-- `calcular_valor_reserva` (lines 229-262): price of the first room of
the requested type (`Limit=1` query), `0` if the type is unknown; nights
are whole days between the parsed dates (a parse failure raises and the
`except` returns `0`); guests beyond the second add `15` per night. -/
def calcular_valor_reserva (db : DB) (checkin checkout : DateStr) (tipo_quarto : String)
    (num_hospedes : Int) : Int :=
  match (query_quartos_tipo db tipo_quarto).head? with
  | none => 0
  | some q =>
    match checkin, checkout with
    | some a, some b =>
      let noites : Int := b - a
      let taxa_extra_hospede : Int := if num_hospedes > 2 then (num_hospedes - 2) * 15 else 0
      (q.preco_diaria + taxa_extra_hospede) * noites
    | _, _ => 0

/-- `put_item` on a table keyed by `reserva_id`. -/
def put_reserva (xs : List Reserva) (r : Reserva) : List Reserva :=
  r :: xs.filter (fun x => x.reserva_id ≠ r.reserva_id)

/-- `put_item` on a table keyed by `email`. -/
def put_cliente (xs : List Cliente) (c : Cliente) : List Cliente :=
  c :: xs.filter (fun x => x.email ≠ c.email)

/-- A `criar_reserva` request body: `none` on a required field means the
key is absent from the JSON body. -/
structure Request where
  cliente_email : Option String := none
  checkin : Option DateStr := none
  checkout : Option DateStr := none
  tipo_quarto : Option String := none
  num_hospedes : Option Int := none
  cliente_nome : Option String := none
  cliente_telefone : Option String := none
  servicos_extras : Option (List String) := none
  observacoes : Option String := none
deriving DecidableEq

/-- Response body essence: `success` carries `reserva_id` and
`valor_total` of the 200 response; `erro` carries the message of an
`erro_response` 400 body. -/
inductive Resp where
  | success (reserva_id : String) (valor_total : Int)
  | erro (mensagem : String)
deriving DecidableEq

/-- `criar_ou_atualizar_cliente` (lines 264-279): upsert the customer
record keyed by email. -/
def criar_ou_atualizar_cliente (env : Env) (db : DB) (email : String) (data : Request) : DB :=
  let cliente : Cliente :=
    { email := email, nome := (data.cliente_nome).getD "",
      telefone := (data.cliente_telefone).getD "", ultima_atualizacao := env.now }
  { db with clientes := put_cliente db.clientes cliente }

/-- `enviar_email_confirmacao` (lines 281-319): attempts the SES send
(outcome `env.email_ok`) and swallows any failure in its own
`try/except`; modelled as the produced effect log. -/
def enviar_email_confirmacao (env : Env) (r : Reserva) : List String :=
  if env.email_ok then ["email:" ++ r.cliente_email] else ["email_erro_logado"]

/-- `enviar_para_fila_bi` (lines 321-338): attempts the SQS publish
(outcome `env.sqs_ok`) and swallows any failure in its own `try/except`;
modelled as the produced effect log. -/
def enviar_para_fila_bi (env : Env) (r : Reserva) : List String :=
  if env.sqs_ok then ["bi:" ++ r.reserva_id] else ["bi_erro_logado"]

/-- Modelled from the spec: `atualizar_disponibilidade_quarto` is called by
`criar_reserva` (line 111) between the ledger write and the success
response, but no definition of it exists anywhere in the repository.
Following the spec's collaborator-call model (§6 storage interface, §7
`DependencyFailure`), it is modelled as a collaborator call that either
succeeds without further effect on the modelled state or fails (raises);
the outcome is given by the environment. -/
def atualizar_disponibilidade_quarto (env : Env) (_tipo : String) (_ci _co : DateStr) : Bool :=
  env.update_ok

/-- The booking record built at lines 91-105: status `'confirmada'`, total
from `calcular_valor_reserva`, and no `quarto_id` attribute. -/
def novaReserva (env : Env) (db : DB) (email : String) (checkin checkout : DateStr)
    (tipo : String) (nh : Int) (data : Request) : Reserva :=
  { reserva_id := env.fresh_id, cliente_email := email,
    cliente_nome := (data.cliente_nome).getD "",
    cliente_telefone := (data.cliente_telefone).getD "",
    checkin := checkin, checkout := checkout, tipo_quarto := tipo, num_hospedes := nh,
    valor_total := calcular_valor_reserva db checkin checkout tipo nh,
    status := "confirmada", data_criacao := env.now,
    servicos_extras := (data.servicos_extras).getD [],
    observacoes := (data.observacoes).getD "", quarto_id := none }

/-- The ledger state right after the customer upsert and the
`put_item` of the new booking (lines 88-108). -/
def dbAposEscrita (env : Env) (db : DB) (email : String) (checkin checkout : DateStr)
    (tipo : String) (nh : Int) (data : Request) : DB :=
  let db1 := criar_ou_atualizar_cliente env db email data
  let reserva := novaReserva env db email checkin checkout tipo nh data
  { db1 with reservas := put_reserva db1.reservas reserva }

/-- The tail of `criar_reserva` after the availability test succeeded
(lines 76-132): compute the total, upsert the customer, build the booking
record, `put_item` it, then call `atualizar_disponibilidade_quarto`; if
that call raises, the enclosing `except` (line 134) returns the generic
error response — the booking is already persisted.  Otherwise send the
email and the BI message (both swallow their own failures) and return the
success body.  The third component is the side-effect log. -/
def criar_reserva_commit (env : Env) (db : DB) (email : String) (checkin checkout : DateStr)
    (tipo : String) (nh : Int) (data : Request) : DB × Resp × List String :=
  let reserva := novaReserva env db email checkin checkout tipo nh data
  let db2 := dbAposEscrita env db email checkin checkout tipo nh data
  if atualizar_disponibilidade_quarto env tipo checkin checkout then
    (db2, Resp.success env.fresh_id reserva.valor_total,
      enviar_email_confirmacao env reserva ++ enviar_para_fila_bi env reserva)
  else
    (db2, Resp.erro "Erro ao processar reserva", ["atualizacao_erro"])

/-- Whatever the outcome of the availability-update call, the ledger state
returned by the commit tail is the post-write state. -/
theorem criar_reserva_commit_fst (env : Env) (db : DB) (email : String)
    (checkin checkout : DateStr) (tipo : String) (nh : Int) (data : Request) :
    (criar_reserva_commit env db email checkin checkout tipo nh data).1
      = dbAposEscrita env db email checkin checkout tipo nh data := by
  unfold criar_reserva_commit
  split <;> rfl

/-- `criar_reserva` (lines 55-136): check the required fields in order
(first missing one yields its `Campo obrigatório` error), run
`verificar_disponibilidade`, reject with the unavailability message when
`disponivel` is false, else proceed to the commit tail. -/
def criar_reserva (env : Env) (db : DB) (data : Request) : DB × Resp × List String :=
  match data.cliente_email with
  | none => (db, Resp.erro "Campo obrigatório: cliente_email", [])
  | some email =>
    match data.checkin with
    | none => (db, Resp.erro "Campo obrigatório: checkin", [])
    | some checkin =>
      match data.checkout with
      | none => (db, Resp.erro "Campo obrigatório: checkout", [])
      | some checkout =>
        match data.tipo_quarto with
        | none => (db, Resp.erro "Campo obrigatório: tipo_quarto", [])
        | some tipo =>
          match data.num_hospedes with
          | none => (db, Resp.erro "Campo obrigatório: num_hospedes", [])
          | some nh =>
            if (verificar_disponibilidade db checkin checkout tipo).disponivel then
              criar_reserva_commit env db email checkin checkout tipo nh data
            else
              (db, Resp.erro "Quarto não disponível para as datas selecionadas", [])

/-- Result of the cancellation operation. -/
inductive CancelResp where
  | success
  | jaCancelada
  | naoEncontrada
deriving DecidableEq

/-- Status update applied by cancellation to the record with the given id. -/
def cancelUpdate (rid : String) (x : Reserva) : Reserva :=
  if x.reserva_id == rid then { x with status := "cancelada" } else x

/-- Modelled from the spec: `lambda_handler` dispatches the action
`cancelar_reserva` (line 39) but no definition of `cancelar_reserva`
exists anywhere in the repository.  Per the spec (§4.2 `cancel`, §4.5
Cancellation operation): look up the booking by id; if not found report
not-found; if already cancelled report "already cancelled" (a graceful
no-op); otherwise set its status to `cancelada`. -/
def cancelar_reserva (db : DB) (rid : String) : DB × CancelResp :=
  match db.reservas.find? (fun r => r.reserva_id == rid) with
  | none => (db, CancelResp.naoEncontrada)
  | some r =>
    if r.status == "cancelada" then (db, CancelResp.jaCancelada)
    else ({ db with reservas := db.reservas.map (cancelUpdate rid) }, CancelResp.success)

end Hostel

namespace Hostel

/-- A catalog with one private double at nightly rate 50. -/
def quartoPrivado : Quarto :=
  { quarto_id := "q1", tipo := "privado", capacidade := 2, preco_diaria := 50 }

/-- Initial state: empty ledger, one room, no customers. -/
def dbBase : DB := { reservas := [], quartos := [quartoPrivado], clientes := [] }

/-- Environment where every collaborator call succeeds, request A. -/
def envOkA : Env :=
  { fresh_id := "r-a", now := "t0", update_ok := true, email_ok := true, sqs_ok := true }

/-- Environment where every collaborator call succeeds, request B. -/
def envOkB : Env :=
  { fresh_id := "r-b", now := "t1", update_ok := true, email_ok := true, sqs_ok := true }

/-- Request A: 2 guests, nights 0..10, room type `privado`. -/
def reqA : Request :=
  { cliente_email := some "a@x.com", checkin := some (some 0), checkout := some (some 10),
    tipo_quarto := some "privado", num_hospedes := some 2 }

end Hostel

namespace Hostel

/-- Request B: same room type and dates as `reqA`, different customer. -/
def reqB : Request :=
  { cliente_email := some "b@x.com", checkin := some (some 0), checkout := some (some 10),
    tipo_quarto := some "privado", num_hospedes := some 2 }

/-- C1: the sequential invariant fails on the code.  Starting from an empty
ledger with one `privado` room, two `criar_reserva` executions run strictly
one after the other, for the same room type and the identical interval
`[0, 10)`; both pass the availability check (the inserted booking carries no
`quarto_id`, so the `quarto-data-index` query of the checker never sees it)
and both end up persisted with status `confirmada` — two confirmed bookings
with overlapping intervals attributed to the sole room of the type. -/
theorem criar_reserva_viola_I1_sequencial :
    (criar_reserva envOkA dbBase reqA).2.1 = Resp.success "r-a" 500 ∧
    (criar_reserva envOkB (criar_reserva envOkA dbBase reqA).1 reqB).2.1
      = Resp.success "r-b" 500 ∧
    ∃ r1 ∈ (criar_reserva envOkB (criar_reserva envOkA dbBase reqA).1 reqB).1.reservas,
      ∃ r2 ∈ (criar_reserva envOkB (criar_reserva envOkA dbBase reqA).1 reqB).1.reservas,
        r1.reserva_id ≠ r2.reserva_id ∧ r1.status = "confirmada" ∧ r2.status = "confirmada" ∧
        r1.tipo_quarto = "privado" ∧ r2.tipo_quarto = "privado" ∧
        r1.checkin = some 0 ∧ r1.checkout = some 10 ∧
        r2.checkin = some 0 ∧ r2.checkout = some 10 := by
  decide

/-- Ledger after request A's commit step in the interleaved race. -/
def dbCorrida1 : DB :=
  (criar_reserva_commit envOkA dbBase "a@x.com" (some 0) (some 10) "privado" 2 reqA).1

/-- Ledger after request B's commit step in the interleaved race. -/
def dbCorrida2 : DB :=
  (criar_reserva_commit envOkB dbCorrida1 "b@x.com" (some 0) (some 10) "privado" 2 reqB).1

/-- C3: race safety fails on the code.  Two concurrent `criar_reserva`
executions for the same room type and fully overlapping dates, with a
single room instance, interleave as check-A, check-B, insert-A, insert-B:
both availability checks read the initial ledger and report available,
then both commit tails run; both requests receive the success response and
the final ledger holds two `confirmada` bookings with overlapping
intervals for the one room — not "exactly one succeeds". -/
theorem corrida_criar_reserva_ambas_confirmadas :
    (verificar_disponibilidade dbBase (some 0) (some 10) "privado").disponivel = true ∧
    (criar_reserva_commit envOkA dbBase "a@x.com" (some 0) (some 10) "privado" 2 reqA).2.1
      = Resp.success "r-a" 500 ∧
    (criar_reserva_commit envOkB dbCorrida1 "b@x.com" (some 0) (some 10) "privado" 2 reqB).2.1
      = Resp.success "r-b" 500 ∧
    ∃ r1 ∈ dbCorrida2.reservas, ∃ r2 ∈ dbCorrida2.reservas,
      r1.reserva_id ≠ r2.reserva_id ∧ r1.status = "confirmada" ∧ r2.status = "confirmada" ∧
      r1.tipo_quarto = "privado" ∧ r2.tipo_quarto = "privado" ∧
      r1.checkin = some 0 ∧ r1.checkout = some 10 ∧
      r2.checkin = some 0 ∧ r2.checkout = some 10 := by
  decide

end Hostel

namespace Hostel

/-- The overlap loop reports `false` exactly when some fetched booking,
with parseable stored dates, half-open-overlaps the request. -/
theorem sobreposicao_loop_false_iff (a b : Int) (l : List Reserva)
    (hp : ∀ r ∈ l, r.checkin.isSome ∧ r.checkout.isSome) :
    sobreposicao_loop a b l = false ↔
      ∃ r ∈ l, ∃ c d, r.checkin = some c ∧ r.checkout = some d ∧ a < d ∧ b > c := by
  induction l with
  | nil => simp [sobreposicao_loop]
  | cons r rs ih =>
    obtain ⟨hci, hco⟩ := hp r (List.mem_cons_self r rs)
    obtain ⟨c, hc⟩ := Option.isSome_iff_exists.1 hci
    obtain ⟨d, hd⟩ := Option.isSome_iff_exists.1 hco
    have hrs : ∀ x ∈ rs, x.checkin.isSome ∧ x.checkout.isSome :=
      fun x hx => hp x (List.mem_cons_of_mem r hx)
    by_cases hov : a < d ∧ b > c
    · constructor
      · intro _
        exact ⟨r, List.mem_cons_self r rs, c, d, hc, hd, hov.1, hov.2⟩
      · intro _
        simp only [sobreposicao_loop, hc, hd]
        rw [if_pos hov]
    · have hstep : sobreposicao_loop a b (r :: rs) = sobreposicao_loop a b rs := by
        simp only [sobreposicao_loop, hc, hd]
        rw [if_neg hov]
      rw [hstep, ih hrs]
      constructor
      · rintro ⟨x, hx, hrest⟩
        exact ⟨x, List.mem_cons_of_mem r hx, hrest⟩
      · rintro ⟨x, hx, c', d', hc', hd', h1, h2⟩
        rcases List.mem_cons.1 hx with rfl | hx'
        · rw [hc] at hc'
          rw [hd] at hd'
          cases Option.some.inj hc'
          cases Option.some.inj hd'
          exact absurd ⟨h1, h2⟩ hov
        · exact ⟨x, hx', c', d', hc', hd', h1, h2⟩

/-- C2: overlap detection correctness.  For a requested interval `[a, b)`,
`verificar_quarto_disponivel` reports the room unavailable (`false`) iff
some confirmed booking for the room fetched from the ledger has an
interval `[c, d)` with `a < d` and `b > c` — the half-open overlap test;
in particular a back-to-back request with `a` equal to an existing
booking's checkout is reported available. -/
theorem verificar_quarto_disponivel_false_iff (db : DB) (qid : String) (a b : Int)
    (hp : ∀ r ∈ query_reservas_quarto db qid, r.checkin.isSome ∧ r.checkout.isSome) :
    verificar_quarto_disponivel db qid (some a) (some b) = false ↔
      ∃ r ∈ query_reservas_quarto db qid, ∃ c d,
        r.checkin = some c ∧ r.checkout = some d ∧ a < d ∧ b > c := by
  unfold verificar_quarto_disponivel
  exact sobreposicao_loop_false_iff a b _ hp

/-- An existing confirmed booking `[10, 15)` on room `q1`, carrying the
GSI key. -/
def reservaExistente : Reserva :=
  { reserva_id := "r-0", cliente_email := "c@x.com", checkin := some 10, checkout := some 15,
    tipo_quarto := "privado", num_hospedes := 2, valor_total := 250,
    status := "confirmada", quarto_id := some "q1" }

/-- Ledger holding `reservaExistente`. -/
def dbExistente : DB :=
  { reservas := [reservaExistente], quartos := [quartoPrivado], clientes := [] }

/-- C2 witness: the characterization instantiated at the back-to-back
boundary case — existing booking `[10, 15)`, request `[15, 18)`. -/
theorem verificar_quarto_disponivel_false_iff_witness :
    (∀ r ∈ query_reservas_quarto dbExistente "q1", r.checkin.isSome ∧ r.checkout.isSome) ∧
    (verificar_quarto_disponivel dbExistente "q1" (some 15) (some 18) = false ↔
      ∃ r ∈ query_reservas_quarto dbExistente "q1", ∃ c d,
        r.checkin = some c ∧ r.checkout = some d ∧ 15 < d ∧ 18 > c) :=
  ⟨by decide, verificar_quarto_disponivel_false_iff dbExistente "q1" 15 18 (by decide)⟩

/-- C5: price calculation.  When the `Limit=1` query for the room type
returns a room with nightly rate `q.preco_diaria`, the computed total is
`(rate + max 0 (guests - 2) * 15) * (checkout - checkin)`. -/
theorem calcular_valor_formula (db : DB) (tipo : String) (q : Quarto)
    (hq : (query_quartos_tipo db tipo).head? = some q) (a b g : Int) :
    calcular_valor_reserva db (some a) (some b) tipo g
      = (q.preco_diaria + max 0 (g - 2) * 15) * (b - a) := by
  unfold calcular_valor_reserva
  rw [hq]
  by_cases hg : g > 2
  · rw [if_pos hg]
    have hmax : max 0 (g - 2) = g - 2 := max_eq_right (by omega)
    rw [hmax]
  · rw [if_neg hg]
    have hmax : max 0 (g - 2) = 0 := max_eq_left (by omega)
    rw [hmax]
    ring

/-- C5 witness: rate 50, nights `[0, 3)`, 2 guests give 150; 4 guests give
240. -/
theorem calcular_valor_formula_witness :
    (query_quartos_tipo dbBase "privado").head? = some quartoPrivado ∧
    calcular_valor_reserva dbBase (some 0) (some 3) "privado" 2 = 150 ∧
    calcular_valor_reserva dbBase (some 0) (some 3) "privado" 4 = 240 :=
  ⟨by decide,
   (calcular_valor_formula dbBase "privado" quartoPrivado (by decide) 0 3 2).trans (by decide),
   (calcular_valor_formula dbBase "privado" quartoPrivado (by decide) 0 3 4).trans (by decide)⟩

end Hostel

namespace Hostel

/-- With `checkin = checkout` the computed total is `0` on every ledger:
either the room type is unknown (explicit `0`) or the night count
`checkout - checkin` is `0`. -/
theorem calcular_valor_zero_noites (db : DB) (tipo : String) (nh : Int) (t : Int) :
    calcular_valor_reserva db (some t) (some t) tipo nh = 0 := by
  unfold calcular_valor_reserva
  cases (query_quartos_tipo db tipo).head? with
  | none => rfl
  | some q => simp

/-- Zero-night request: `checkin = checkout = 5`, all fields present. -/
def reqZero : Request :=
  { cliente_email := some "z@x.com", checkin := some (some 5), checkout := some (some 5),
    tipo_quarto := some "privado", num_hospedes := some 2 }

/-- Environment for the zero-night run. -/
def envOkZ : Env :=
  { fresh_id := "r-z", now := "t2", update_ok := true, email_ok := true, sqs_ok := true }

/-- C4 counterexample: a `criar_reserva` request with `checkin == checkout`
is NOT rejected as invalid input — with a free room it is reported
available, persisted as a confirmed zero-night booking with total `0`, and
answered with the success response. -/
theorem zero_noites_contraexemplo :
    (criar_reserva envOkZ dbBase reqZero).2.1 = Resp.success "r-z" 0 ∧
    ∃ r ∈ (criar_reserva envOkZ dbBase reqZero).1.reservas,
      r.status = "confirmada" ∧ r.checkin = some 5 ∧ r.checkout = some 5 ∧
      r.valor_total = 0 := by
  decide

/-- C4 (amended): a request with `checkin == checkout` is never rejected
as invalid input; whenever the availability check reports the room type
free, the request is persisted as a `confirmada` zero-night booking with
total price `0`. -/
theorem zero_noites_persistida (env : Env) (db : DB) (data : Request) (email : String)
    (t : Int) (tipo : String) (nh : Int)
    (he : data.cliente_email = some email) (hci : data.checkin = some (some t))
    (hco : data.checkout = some (some t)) (ht : data.tipo_quarto = some tipo)
    (hn : data.num_hospedes = some nh)
    (hd : (verificar_disponibilidade db (some t) (some t) tipo).disponivel = true) :
    ∃ r ∈ (criar_reserva env db data).1.reservas,
      r.reserva_id = env.fresh_id ∧ r.status = "confirmada" ∧
      r.checkin = some t ∧ r.checkout = some t ∧ r.valor_total = 0 := by
  unfold criar_reserva
  simp only [he, hci, hco, ht, hn, hd, if_true]
  rw [criar_reserva_commit_fst]
  refine ⟨novaReserva env db email (some t) (some t) tipo nh data, ?_, rfl, rfl, rfl, rfl, ?_⟩
  · simp [dbAposEscrita, put_reserva]
  · exact calcular_valor_zero_noites db tipo nh t

/-- C4 witness: the amended statement instantiated at the concrete
zero-night run. -/
theorem zero_noites_persistida_witness :
    (verificar_disponibilidade dbBase (some 5) (some 5) "privado").disponivel = true ∧
    ∃ r ∈ (criar_reserva envOkZ dbBase reqZero).1.reservas,
      r.reserva_id = "r-z" ∧ r.status = "confirmada" ∧
      r.checkin = some 5 ∧ r.checkout = some 5 ∧ r.valor_total = 0 :=
  ⟨by decide,
   zero_noites_persistida envOkZ dbBase reqZero "z@x.com" 5 "privado" 2
     rfl rfl rfl rfl rfl (by decide)⟩

end Hostel

namespace Hostel

/-- The cancellation status update commutes with `find?` by id, because it
preserves `reserva_id`. -/
theorem find?_map_cancelUpdate (l : List Reserva) (rid : String) :
    (l.map (cancelUpdate rid)).find? (fun x => x.reserva_id == rid)
      = (l.find? (fun x => x.reserva_id == rid)).map (cancelUpdate rid) := by
  induction l with
  | nil => rfl
  | cons y ys ih =>
    cases h : (y.reserva_id == rid) with
    | true =>
      have hy : ((cancelUpdate rid y).reserva_id == rid) = true := by
        simp [cancelUpdate, h]
      simp only [List.map_cons, List.find?, hy, h, Option.map_some']
    | false =>
      have hy : ((cancelUpdate rid y).reserva_id == rid) = false := by
        simp [cancelUpdate, h]
      simp only [List.map_cons, List.find?, hy, h, ih]

/-- C6: idempotent cancellation (operation modelled from the spec, the
repository never defines it).  Cancelling a `confirmada` booking succeeds
and sets its status to `cancelada`; the cancelled booking no longer
appears among the confirmed bookings the availability checker fetches
(its interval is freed); a second cancellation of the same id reports
"already cancelled" without changing the state; cancelling an id absent
from the ledger reports not-found. -/
theorem cancelar_reserva_idempotente (db : DB) (rid : String) (r : Reserva)
    (hfind : db.reservas.find? (fun x => x.reserva_id == rid) = some r)
    (hst : r.status = "confirmada") :
    (cancelar_reserva db rid).2 = CancelResp.success ∧
    (∀ x ∈ (cancelar_reserva db rid).1.reservas, x.reserva_id = rid → x.status = "cancelada") ∧
    (∀ qid : String, ∀ x ∈ query_reservas_quarto (cancelar_reserva db rid).1 qid,
      x.reserva_id ≠ rid) ∧
    cancelar_reserva (cancelar_reserva db rid).1 rid
      = ((cancelar_reserva db rid).1, CancelResp.jaCancelada) ∧
    (∀ db2 : DB, db2.reservas.find? (fun x => x.reserva_id == rid) = none →
      cancelar_reserva db2 rid = (db2, CancelResp.naoEncontrada)) := by
  have hne : (r.status == "cancelada") = false := by
    rw [hst]
    decide
  have h1 : cancelar_reserva db rid
      = ({ db with reservas := db.reservas.map (cancelUpdate rid) }, CancelResp.success) := by
    unfold cancelar_reserva
    rw [hfind]
    simp [hne]
  have hpr0 := List.find?_some hfind
  have hpr : (r.reserva_id == rid) = true := by simpa using hpr0
  have hcanc : ∀ x ∈ (cancelar_reserva db rid).1.reservas,
      x.reserva_id = rid → x.status = "cancelada" := by
    rw [h1]
    intro x hx hid
    obtain ⟨y, hy, rfl⟩ := List.mem_map.1 hx
    by_cases h : (y.reserva_id == rid) = true
    · simp [cancelUpdate, h]
    · rw [show cancelUpdate rid y = y from if_neg h] at hid
      exact absurd hid (by simpa using h)
  refine ⟨by rw [h1], hcanc, ?_, ?_, ?_⟩
  · intro qid x hx hid
    have hmem := (List.mem_filter.1 hx).1
    have hcond := (List.mem_filter.1 hx).2
    have hconf : x.status = "confirmada" := by
      simp only [Bool.and_eq_true, beq_iff_eq] at hcond
      exact hcond.2
    have := hcanc x hmem hid
    rw [this] at hconf
    exact absurd hconf (by decide)
  · rw [h1]
    unfold cancelar_reserva
    rw [show ({ db with reservas := db.reservas.map (cancelUpdate rid) } : DB).reservas
        = db.reservas.map (cancelUpdate rid) from rfl]
    rw [find?_map_cancelUpdate, hfind, Option.map_some']
    simp [cancelUpdate, hpr]
  · intro db2 h
    unfold cancelar_reserva
    rw [h]

/-- A cancellable confirmed booking `[20, 23)` on room `q1`. -/
def reservaCancelavel : Reserva :=
  { reserva_id := "r-w", cliente_email := "w@x.com", checkin := some 20, checkout := some 23,
    tipo_quarto := "privado", num_hospedes := 2, valor_total := 150,
    status := "confirmada", quarto_id := some "q1" }

/-- Ledger holding the cancellable booking. -/
def dbCancel : DB :=
  { reservas := [reservaCancelavel], quartos := [quartoPrivado], clientes := [] }

/-- C6 witness: the cancellation behaviour instantiated on a concrete
ledger with one confirmed booking. -/
theorem cancelar_reserva_idempotente_witness :
    dbCancel.reservas.find? (fun x => x.reserva_id == "r-w") = some reservaCancelavel ∧
    ((cancelar_reserva dbCancel "r-w").2 = CancelResp.success ∧
    (∀ x ∈ (cancelar_reserva dbCancel "r-w").1.reservas,
      x.reserva_id = "r-w" → x.status = "cancelada") ∧
    (∀ qid : String, ∀ x ∈ query_reservas_quarto (cancelar_reserva dbCancel "r-w").1 qid,
      x.reserva_id ≠ "r-w") ∧
    cancelar_reserva (cancelar_reserva dbCancel "r-w").1 "r-w"
      = ((cancelar_reserva dbCancel "r-w").1, CancelResp.jaCancelada) ∧
    (∀ db2 : DB, db2.reservas.find? (fun x => x.reserva_id == "r-w") = none →
      cancelar_reserva db2 "r-w" = (db2, CancelResp.naoEncontrada))) :=
  ⟨by decide, cancelar_reserva_idempotente dbCancel "r-w" reservaCancelavel (by decide) rfl⟩

end Hostel

namespace Hostel

/-- When every required field is present and the availability check
reports `disponivel`, `criar_reserva` runs its commit tail. -/
theorem criar_reserva_commit_eq (env : Env) (db : DB) (data : Request) (email : String)
    (ci co : DateStr) (tipo : String) (nh : Int)
    (he : data.cliente_email = some email) (hci : data.checkin = some ci)
    (hco : data.checkout = some co) (ht : data.tipo_quarto = some tipo)
    (hn : data.num_hospedes = some nh)
    (hd : (verificar_disponibilidade db ci co tipo).disponivel = true) :
    criar_reserva env db data = criar_reserva_commit env db email ci co tipo nh data := by
  unfold criar_reserva
  simp only [he, hci, hco, ht, hn, hd, if_true]

/-- Environment whose availability-update collaborator call fails. -/
def envFalhaUpd : Env :=
  { fresh_id := "r-f", now := "t3", update_ok := false, email_ok := true, sqs_ok := true }

/-- Request for the failed-update run: `[30, 33)`, 3 guests. -/
def reqC7 : Request :=
  { cliente_email := some "f@x.com", checkin := some (some 30), checkout := some (some 33),
    tipo_quarto := some "privado", num_hospedes := some 3 }

/-- C7 counterexample: a request that passes validation and the
availability check, whose ledger write succeeds (the booking ends up
persisted `confirmada`), is answered with an ERROR response when the
availability-update step after the write fails — so "validation +
availability + write succeeded" does not imply a success response. -/
theorem aceitacao_contraexemplo :
    (criar_reserva envFalhaUpd dbBase reqC7).2.1 = Resp.erro "Erro ao processar reserva" ∧
    ∃ r ∈ (criar_reserva envFalhaUpd dbBase reqC7).1.reservas,
      r.reserva_id = "r-f" ∧ r.status = "confirmada" := by
  decide

/-- C7 (amended): when validation, the availability check, the ledger
write AND the subsequent room-availability update all succeed,
`criar_reserva` returns the success response with the generated id and
the computed total, the booking is persisted `confirmada`, and the
outcomes of the notification send and the analytics publish change
neither the returned ledger state nor the response. -/
theorem aceitacao_pos_condicao (env : Env) (db : DB) (data : Request) (email : String)
    (ci co : DateStr) (tipo : String) (nh : Int)
    (he : data.cliente_email = some email) (hci : data.checkin = some ci)
    (hco : data.checkout = some co) (ht : data.tipo_quarto = some tipo)
    (hn : data.num_hospedes = some nh)
    (hd : (verificar_disponibilidade db ci co tipo).disponivel = true)
    (hu : env.update_ok = true) :
    (criar_reserva env db data).2.1
      = Resp.success env.fresh_id (calcular_valor_reserva db ci co tipo nh) ∧
    (∃ r ∈ (criar_reserva env db data).1.reservas,
      r.reserva_id = env.fresh_id ∧ r.status = "confirmada") ∧
    ∀ e s : Bool,
      (criar_reserva { env with email_ok := e, sqs_ok := s } db data).1
        = (criar_reserva env db data).1 ∧
      (criar_reserva { env with email_ok := e, sqs_ok := s } db data).2.1
        = (criar_reserva env db data).2.1 := by
  obtain ⟨fid, nw, uo, eo, so⟩ := env
  have hu' : uo = true := hu
  subst hu'
  have hcr := criar_reserva_commit_eq (Env.mk fid nw true eo so) db data email ci co tipo nh
    he hci hco ht hn hd
  refine ⟨?_, ?_, ?_⟩
  · rw [hcr]
    rfl
  · rw [hcr, criar_reserva_commit_fst]
    exact ⟨novaReserva (Env.mk fid nw true eo so) db email ci co tipo nh data,
      by simp [dbAposEscrita, put_reserva], rfl, rfl⟩
  · intro e s
    have hcr' := criar_reserva_commit_eq (Env.mk fid nw true e s) db data email ci co tipo nh
      he hci hco ht hn hd
    constructor
    · rw [hcr]
      rw [show ({ Env.mk fid nw true eo so with email_ok := e, sqs_ok := s } : Env)
          = Env.mk fid nw true e s from rfl, hcr']
      rfl
    · rw [hcr]
      rw [show ({ Env.mk fid nw true eo so with email_ok := e, sqs_ok := s } : Env)
          = Env.mk fid nw true e s from rfl, hcr']
      rfl

/-- C7 witness: the amended postcondition instantiated at the concrete
successful run of request B. -/
theorem aceitacao_pos_condicao_witness :
    (verificar_disponibilidade dbBase (some 0) (some 10) "privado").disponivel = true ∧
    ((criar_reserva envOkB dbBase reqB).2.1
      = Resp.success "r-b" (calcular_valor_reserva dbBase (some 0) (some 10) "privado" 2) ∧
    (∃ r ∈ (criar_reserva envOkB dbBase reqB).1.reservas,
      r.reserva_id = "r-b" ∧ r.status = "confirmada") ∧
    ∀ e s : Bool,
      (criar_reserva { envOkB with email_ok := e, sqs_ok := s } dbBase reqB).1
        = (criar_reserva envOkB dbBase reqB).1 ∧
      (criar_reserva { envOkB with email_ok := e, sqs_ok := s } dbBase reqB).2.1
        = (criar_reserva envOkB dbBase reqB).2.1) :=
  ⟨by decide,
   aceitacao_pos_condicao envOkB dbBase reqB "b@x.com" (some 0) (some 10) "privado" 2
     rfl rfl rfl rfl rfl (by decide) rfl⟩

/-- Request for an unknown room type. -/
def reqSuite : Request :=
  { cliente_email := some "s@x.com", checkin := some (some 1), checkout := some (some 3),
    tipo_quarto := some "suite", num_hospedes := some 2 }

/-- Request that genuinely collides with the existing booking `[10, 15)`. -/
def reqOverlap : Request :=
  { cliente_email := some "o@x.com", checkin := some (some 12), checkout := some (some 14),
    tipo_quarto := some "privado", num_hospedes := some 2 }

/-- C9 counterexample: an unknown room type (`suite`, absent from the
catalog) is answered with exactly the same `Quarto não disponível para as
datas selecionadas` rejection as a genuine date collision — the
room-unavailable kind, not a distinct invalid-input kind. -/
theorem tipo_desconhecido_contraexemplo :
    (criar_reserva envOkA dbBase reqSuite).2.1
      = Resp.erro "Quarto não disponível para as datas selecionadas" ∧
    (criar_reserva envOkA dbBase reqSuite).1 = dbBase ∧
    (criar_reserva envOkA dbExistente reqOverlap).2.1
      = Resp.erro "Quarto não disponível para as datas selecionadas" := by
  decide

/-- C9 (amended): a request whose room type matches no room in the catalog
is rejected with the room-unavailable message (the same reason string as a
date collision), with no ledger write and no side effects. -/
theorem tipo_desconhecido_indisponivel (env : Env) (db : DB) (data : Request) (email : String)
    (ci co : DateStr) (tipo : String) (nh : Int)
    (he : data.cliente_email = some email) (hci : data.checkin = some ci)
    (hco : data.checkout = some co) (ht : data.tipo_quarto = some tipo)
    (hn : data.num_hospedes = some nh)
    (hq : query_quartos_tipo db tipo = []) :
    criar_reserva env db data
      = (db, Resp.erro "Quarto não disponível para as datas selecionadas", []) := by
  have hv : verificar_disponibilidade db ci co tipo = { disponivel := false } := by
    unfold verificar_disponibilidade
    rw [hq]
    rfl
  unfold criar_reserva
  simp [he, hci, hco, ht, hn, hv]

/-- C9 witness: the amended statement instantiated at the unknown type
`suite` on the base catalog. -/
theorem tipo_desconhecido_indisponivel_witness :
    query_quartos_tipo dbBase "suite" = [] ∧
    criar_reserva envOkB dbBase reqSuite
      = (dbBase, Resp.erro "Quarto não disponível para as datas selecionadas", []) :=
  ⟨by decide,
   tipo_desconhecido_indisponivel envOkB dbBase reqSuite "s@x.com" (some 1) (some 3)
     "suite" 2 rfl rfl rfl rfl rfl (by decide)⟩

/-- C10: error responses are not atomic.  For any request that passes
validation and the availability check, if the availability-update
collaborator call after the ledger write fails, `criar_reserva` answers
with the generic error response while the new booking is already
persisted with status `confirmada` — an error response does not imply an
unchanged ledger. -/
theorem erro_nao_atomico (env : Env) (db : DB) (data : Request) (email : String)
    (ci co : DateStr) (tipo : String) (nh : Int)
    (he : data.cliente_email = some email) (hci : data.checkin = some ci)
    (hco : data.checkout = some co) (ht : data.tipo_quarto = some tipo)
    (hn : data.num_hospedes = some nh)
    (hd : (verificar_disponibilidade db ci co tipo).disponivel = true)
    (hu : env.update_ok = false) :
    (criar_reserva env db data).2.1 = Resp.erro "Erro ao processar reserva" ∧
    ∃ r ∈ (criar_reserva env db data).1.reservas,
      r.reserva_id = env.fresh_id ∧ r.status = "confirmada" := by
  obtain ⟨fid, nw, uo, eo, so⟩ := env
  have hu' : uo = false := hu
  subst hu'
  have hcr := criar_reserva_commit_eq (Env.mk fid nw false eo so) db data email ci co tipo nh
    he hci hco ht hn hd
  constructor
  · rw [hcr]
    rfl
  · rw [hcr, criar_reserva_commit_fst]
    exact ⟨novaReserva (Env.mk fid nw false eo so) db email ci co tipo nh data,
      by simp [dbAposEscrita, put_reserva], rfl, rfl⟩

/-- Environment for the C10 witness run: the update call fails, and so do
the (irrelevant) notification and analytics calls. -/
def envFalhaG : Env :=
  { fresh_id := "r-g", now := "t5", update_ok := false, email_ok := false, sqs_ok := false }

/-- Request for the C10 witness run: `[50, 52)`. -/
def reqC10 : Request :=
  { cliente_email := some "g@x.com", checkin := some (some 50), checkout := some (some 52),
    tipo_quarto := some "privado", num_hospedes := some 2 }

/-- C10 witness: the non-atomicity instantiated at a concrete run with a
failing update step. -/
theorem erro_nao_atomico_witness :
    (verificar_disponibilidade dbBase (some 50) (some 52) "privado").disponivel = true ∧
    ((criar_reserva envFalhaG dbBase reqC10).2.1 = Resp.erro "Erro ao processar reserva" ∧
    ∃ r ∈ (criar_reserva envFalhaG dbBase reqC10).1.reservas,
      r.reserva_id = "r-g" ∧ r.status = "confirmada") :=
  ⟨by decide,
   erro_nao_atomico envFalhaG dbBase reqC10 "g@x.com" (some 50) (some 52) "privado" 2
     rfl rfl rfl rfl rfl (by decide) rfl⟩

end Hostel

namespace Hostel

/-- An unparseable requested date makes `verificar_quarto_disponivel`
return `False` for every room (the `fromisoformat` exception is caught). -/
theorem verificar_quarto_sem_data (db : DB) (qid : String) (ci co : DateStr)
    (h : ci = none ∨ co = none) :
    verificar_quarto_disponivel db qid ci co = false := by
  rcases h with rfl | rfl
  · rfl
  · cases ci <;> rfl

/-- With an unparseable requested date, no room of any type is reported
available. -/
theorem verificar_disponibilidade_sem_data (db : DB) (ci co : DateStr) (tipo : String)
    (h : ci = none ∨ co = none) :
    verificar_disponibilidade db ci co tipo = { disponivel := false } := by
  unfold verificar_disponibilidade
  have hnone : (query_quartos_tipo db tipo).find?
      (fun q => verificar_quarto_disponivel db q.quarto_id ci co) = none := by
    apply List.find?_eq_none.2
    intro q _
    simp [verificar_quarto_sem_data db q.quarto_id ci co h]
  rw [hnone]

/-- Request with a non-positive guest count and otherwise valid data. -/
def reqHosp0 : Request :=
  { cliente_email := some "h@x.com", checkin := some (some 40), checkout := some (some 45),
    tipo_quarto := some "privado", num_hospedes := some 0 }

/-- Environment for the zero-guest run. -/
def envOkH : Env :=
  { fresh_id := "r-h", now := "t4", update_ok := true, email_ok := true, sqs_ok := true }

/-- C8 counterexample: a request with guest count `0` is NOT rejected as
invalid input — it passes straight through, a ledger write occurs, and a
`confirmada` booking with `num_hospedes = 0` is persisted with the
success response. -/
theorem hospedes_nao_positivo_contraexemplo :
    (criar_reserva envOkH dbBase reqHosp0).2.1 = Resp.success "r-h" 250 ∧
    ∃ r ∈ (criar_reserva envOkH dbBase reqHosp0).1.reservas,
      r.num_hospedes = 0 ∧ r.status = "confirmada" := by
  decide

/-- C8 (amended): a request missing any of the five required fields is
rejected with the corresponding `Campo obrigatório` message and no ledger
write; a request whose dates do not parse is rejected with no ledger
write, but with the room-unavailable message rather than an invalid-input
one; the guest count is not validated at all (see the counterexample). -/
theorem validacao_campos (env : Env) (db : DB) (data : Request) :
    (data.cliente_email = none ∨ data.checkin = none ∨ data.checkout = none ∨
        data.tipo_quarto = none ∨ data.num_hospedes = none →
      (criar_reserva env db data).1 = db ∧
      ∃ campo, (criar_reserva env db data).2.1 = Resp.erro ("Campo obrigatório: " ++ campo)) ∧
    (∀ (email : String) (ci co : DateStr) (tipo : String) (nh : Int),
      data.cliente_email = some email → data.checkin = some ci → data.checkout = some co →
      data.tipo_quarto = some tipo → data.num_hospedes = some nh →
      (ci = none ∨ co = none) →
      (criar_reserva env db data).1 = db ∧
      (criar_reserva env db data).2.1
        = Resp.erro "Quarto não disponível para as datas selecionadas") := by
  constructor
  · intro h
    rcases hce : data.cliente_email with _ | email
    · exact ⟨by simp [criar_reserva, hce], "cliente_email", by simp [criar_reserva, hce]⟩
    rcases hci : data.checkin with _ | ci
    · exact ⟨by simp [criar_reserva, hce, hci], "checkin", by simp [criar_reserva, hce, hci]⟩
    rcases hco : data.checkout with _ | co
    · exact ⟨by simp [criar_reserva, hce, hci, hco], "checkout",
        by simp [criar_reserva, hce, hci, hco]⟩
    rcases hti : data.tipo_quarto with _ | tipo
    · exact ⟨by simp [criar_reserva, hce, hci, hco, hti], "tipo_quarto",
        by simp [criar_reserva, hce, hci, hco, hti]⟩
    rcases hnh : data.num_hospedes with _ | nh
    · exact ⟨by simp [criar_reserva, hce, hci, hco, hti, hnh], "num_hospedes",
        by simp [criar_reserva, hce, hci, hco, hti, hnh]⟩
    · exfalso
      rcases h with h | h | h | h | h <;> simp_all
  · intro email ci co tipo nh hce hci hco hti hnh hdate
    have hv := verificar_disponibilidade_sem_data db ci co tipo hdate
    constructor <;> simp [criar_reserva, hce, hci, hco, hti, hnh, hv]

/-- Request missing the customer e-mail field. -/
def reqSemEmail : Request :=
  { checkin := some (some 1), checkout := some (some 2),
    tipo_quarto := some "privado", num_hospedes := some 2 }

/-- C8 witness: the missing-field branch instantiated at a request
without `cliente_email` — state unchanged, `Campo obrigatório` error. -/
theorem validacao_campos_witness :
    (criar_reserva envOkA dbBase reqSemEmail).1 = dbBase ∧
    ∃ campo, (criar_reserva envOkA dbBase reqSemEmail).2.1
      = Resp.erro ("Campo obrigatório: " ++ campo) :=
  (validacao_campos envOkA dbBase reqSemEmail).1 (Or.inl rfl)

end Hostel
